import Mathlib

/-
Verification of the WhatsDish backend gateway (src/server.js) against its
natural-language specification.  The gateway's route handlers are shallowly
embedded as pure Lean functions: every outbound network interaction (fetch,
axios, the IP-lookup call) is passed in as an explicit outcome value, and each
handler returns the HTTP response it would send together with the list of
outbound requests it issued.
-/

namespace WD

/-- JSON values, as produced by `express.json()` body parsing and by parsing
upstream response bodies.  Mirrors the JavaScript value universe the server
manipulates (objects keep their field order, as JS objects do). -/
inductive Json where
  | null : Json
  | bool (b : Bool) : Json
  | num (n : Int) : Json
  | str (s : String) : Json
  | arr (elems : List Json) : Json
  | obj (fields : List (String × Json)) : Json

/-- JavaScript truthiness of a value (`if (x)`): `null`, `false`, `0` and the
empty string are falsy; every object and array is truthy. -/
def Json.truthy : Json → Bool
  | .null => false
  | .bool b => b
  | .num n => n != 0
  | .str s => s != ""
  | .arr _ => true
  | .obj _ => true

/-- Property lookup on a JS object: `o[k]`, `undefined` (here `none`) when the
value is not an object or lacks the field.  First binding wins, matching how
the parsed JSON objects the server builds never carry duplicate keys. -/
def lookupField : List (String × Json) → String → Option Json
  | [], _ => none
  | (k, v) :: fs, key => if k = key then some v else lookupField fs key

def Json.getField : Json → String → Option Json
  | .obj fs, k => lookupField fs k
  | _, _ => none

/-- Optional-chained path access, as in `response?.data?.result?.token`:
each step yields `undefined` (`none`) instead of throwing. -/
def Json.getPath : Json → List String → Option Json
  | j, [] => some j
  | j, k :: ks =>
    match j.getField k with
    | some v => v.getPath ks
    | none => none

/-- Truthiness of a possibly-`undefined` JS value. -/
def jsOptTruthy : Option Json → Bool
  | none => false
  | some j => j.truthy

/-- Join strings with commas (the separator both `JSON.stringify` and the JS
array-to-string coercion use). -/
def joinComma : List String → String
  | [] => ""
  | [x] => x
  | x :: xs => x ++ "," ++ joinComma xs

mutual

/-- The JavaScript `String(v)` coercion, used when the server builds an
`Error` out of a non-string `data.message` value. -/
def jsToString : Json → String
  | .null => "null"
  | .bool b => if b then "true" else "false"
  | .num n => toString n
  | .str s => s
  | .arr xs => joinComma (jsToStringElems xs)
  | .obj _ => "[object Object]"

def jsToStringElems : List Json → List String
  | [] => []
  | .null :: js => "" :: jsToStringElems js
  | j :: js => jsToString j :: jsToStringElems js

end

/-- Escape the characters `JSON.stringify` must always escape in the values
this server handles. -/
def escapeJsonChars : List Char → String
  | [] => ""
  | c :: cs =>
    (if c = '"' then "\\\""
     else if c = '\\' then "\\\\"
     else String.singleton c) ++ escapeJsonChars cs

/-- Escape a string for inclusion in a JSON literal. -/
def escapeJsonString (s : String) : String :=
  escapeJsonChars s.data

mutual

/-- `JSON.stringify`, used by `makeAuthenticatedRequest` to serialize a
request body. -/
def Json.stringify : Json → String
  | .null => "null"
  | .bool b => if b then "true" else "false"
  | .num n => toString n
  | .str s => "\"" ++ escapeJsonString s ++ "\""
  | .arr xs => "[" ++ joinComma (stringifyElems xs) ++ "]"
  | .obj fs => "\x7b" ++ joinComma (stringifyFields fs) ++ "\x7d"

def stringifyElems : List Json → List String
  | [] => []
  | j :: js => Json.stringify j :: stringifyElems js

def stringifyFields : List (String × Json) → List String
  | [] => []
  | (k, v) :: fs =>
    ("\"" ++ escapeJsonString k ++ "\":" ++ Json.stringify v) :: stringifyFields fs

end

/-- JS `a || b` on strings, where the empty string is falsy. -/
def strOr (a b : String) : String :=
  if a = "" then b else a

/-- JS `a || b` on numbers, where `0` is falsy (`error.status || 500`). -/
def natOr (a b : Nat) : Nat :=
  if a = 0 then b else a

/-- Truthiness of a possibly-`undefined` JS string. -/
def jsStrTruthy : Option String → Bool
  | none => false
  | some s => s != ""

/-- JS `a || b` on possibly-`undefined` strings
(`req.body.phoneNumber || req.body.phone`). -/
def jsOr (a b : Option String) : Option String :=
  if jsStrTruthy a then a else b

/-- JS `str.split(' ')` at the character level: cut at every space, keeping
empty parts, with `''.split(' ') = ['']`. -/
def splitSpaceChars : List Char → List (List Char)
  | [] => [[]]
  | c :: cs =>
    if c = ' ' then [] :: splitSpaceChars cs
    else
      match splitSpaceChars cs with
      | [] => [[c]]
      | w :: ws => (c :: w) :: ws

/-- JS `str.split(' ')`. -/
def jsSplitSpace (s : String) : List String :=
  (splitSpaceChars s.data).map (fun cs => String.mk cs)

/-- `req.headers['authorization']?.split(' ')[1]`: the token is the second
space-separated part of the Authorization header, `undefined` when the header
is absent or has no second part.  The scheme word is never inspected. -/
def extractToken (authHeader : Option String) : Option String :=
  authHeader.bind (fun h => (jsSplitSpace h).get? 1)

/-- `if (!token)`: the extracted token viewed through JS truthiness — a
present-but-empty second part counts the same as an absent one. -/
def jsToken (t : Option String) : Option String :=
  match t with
  | none => none
  | some s => if s = "" then none else some s

/-- The outcome `fetch` hands to `makeAuthenticatedRequest`: the raw HTTP
status, and either the JSON-parsed body or (when `response.json()` rejects)
the parse error's message. -/
structure FetchResponse where
  status : Nat
  body : Except String Json

/-- `response.ok`: HTTP status in the 2xx range. -/
def respOk (status : Nat) : Bool :=
  200 ≤ status && status ≤ 299

/-- The outbound HTTP request `makeAuthenticatedRequest` builds: target URL,
method, the Authorization header, and the serialized body when one was
attached to the `options` object. -/
structure OutboundRequest where
  url : String
  method : String
  authHeader : String
  reqBody : Option String
deriving DecidableEq

/-- The errors `makeAuthenticatedRequest` can throw: the constructed upstream
error (with `.status`, `.data` and `.message`), the rejection of
`response.json()` (a SyntaxError with no `.status`), and the TypeError raised
by reading `data.message` when the parsed body is `null` (also no `.status`). -/
inductive ReqError where
  | upstream (status : Nat) (data : Json) (message : String)
  | jsonParse (message : String)
  | typeError (message : String)

/-- `data.message || 'API request failed'`, coerced to the `Error` message
string: the stringified `message` field when truthy, else the fixed text. -/
def upstreamErrMessage (data : Json) : String :=
  match data.getField "message" with
  | some m => if m.truthy then jsToString m else "API request failed"
  | none => "API request failed"

/-- What `makeAuthenticatedRequest` does with the fetch outcome: always parse
the response as JSON (`const data = await response.json()` — a parse failure
rejects there, before `response.ok` is consulted), return the data on an
ok status, and on a non-ok status throw an error carrying the status, the
parsed body and `data.message || 'API request failed'`. -/
def fetchOutcome (resp : FetchResponse) : Except ReqError Json :=
  match resp.body with
  | .error e => .error (.jsonParse e)
  | .ok data =>
    if respOk resp.status then .ok data
    else
      match data with
      | .null => .error (.typeError "Cannot read properties of null")
      | _ => .error (.upstream resp.status data (upstreamErrMessage data))

/-- `makeAuthenticatedRequest(url, method, token, body)` from src/server.js:
builds the request options with `Authorization: Bearer <token>`, attaches
`JSON.stringify(body)` only when `body` is truthy and the method is POST or
PUT (`if (body && (method === 'POST' || method === 'PUT'))`), performs the
fetch (whose outcome is the `resp` argument) and classifies it via
`fetchOutcome`.  Returns the request it issued with the result or thrown
error. -/
def makeAuthenticatedRequest (url method token : String) (body : Option Json)
    (resp : FetchResponse) : OutboundRequest × Except ReqError Json :=
  let attach : Bool :=
    (match body with
     | some b => b.truthy
     | none => false) && (method == "POST" || method == "PUT")
  ({ url := url
     method := method
     authHeader := "Bearer " ++ token
     reqBody := if attach then body.map Json.stringify else none },
   fetchOutcome resp)

/-- An HTTP response the gateway sends to its client. -/
structure Response where
  status : Nat
  body : Json

/-- The catch-block of every authenticated proxy route:
`res.status(error.status || 500).json({ error: error.message || <fallback> })`. -/
def relayError (fallback : String) (e : ReqError) : Response :=
  match e with
  | .upstream st _ msg =>
    { status := natOr st 500, body := .obj [("error", .str (strOr msg fallback))] }
  | .jsonParse msg =>
    { status := 500, body := .obj [("error", .str (strOr msg fallback))] }
  | .typeError msg =>
    { status := 500, body := .obj [("error", .str (strOr msg fallback))] }

/-- The shared body of the authenticated proxy routes once a truthy token is
in hand: call `makeAuthenticatedRequest`; on success `res.json(data)`
(status 200), on a thrown error relay via the route's catch block. -/
def proxyCall (url method : String) (body : Option Json) (fallback : String)
    (token : String) (resp : FetchResponse) : Response × List OutboundRequest :=
  match makeAuthenticatedRequest url method token body resp with
  | (req, .ok data) => ({ status := 200, body := data }, [req])
  | (req, .error e) => (relayError fallback e, [req])

/-- The 401 response every auth-required route sends when the extracted token
is falsy: `res.status(401).json({ error: 'Token is required' })`, with no
outbound call made. -/
def unauthorizedResponse : Response :=
  { status := 401, body := .obj [("error", .str "Token is required")] }

/-- The common shape of the GET/DELETE authenticated proxy routes in
src/server.js (profile, payment-method list/delete, restaurant detail): each
extracts the token with `req.headers['authorization']?.split(' ')[1]`,
returns 401 before any network call when it is falsy, and otherwise proxies
to its URL with its own fallback error message.  The routes are textually
identical up to these two parameters. -/
def authProxy (url method fallback : String) (authHeader : Option String)
    (resp : FetchResponse) : Response × List OutboundRequest :=
  match jsToken (extractToken authHeader) with
  | none => (unauthorizedResponse, [])
  | some t => proxyCall url method none fallback t resp

/-- `app.get('/api/user/profile')`. -/
def getUserProfile (base : String) (authHeader : Option String)
    (resp : FetchResponse) : Response × List OutboundRequest :=
  authProxy (base ++ "/api/rn/profile") "GET" "Error fetching profile" authHeader resp

/-- `app.get('/api/profile/payment-methods')`. -/
def getPaymentMethods (base : String) (authHeader : Option String)
    (resp : FetchResponse) : Response × List OutboundRequest :=
  authProxy (base ++ "/api/profile/payment-methods") "GET"
    "Error fetching payment methods" authHeader resp

/-- `app.delete('/api/profile/payment-methods/:cardId')`. -/
def deletePaymentMethod (base : String) (authHeader : Option String)
    (cardId : String) (resp : FetchResponse) : Response × List OutboundRequest :=
  authProxy (base ++ "/api/profile/payment-methods/" ++ cardId) "DELETE"
    "Error deleting payment method" authHeader resp

/-- `app.get('/api/restaurants/:restaurantId')`. -/
def getRestaurantDetail (base : String) (authHeader : Option String)
    (restaurantId : String) (resp : FetchResponse) : Response × List OutboundRequest :=
  authProxy (base ++ "/api/rn/merchants/" ++ restaurantId) "GET"
    "Error fetching restaurant details" authHeader resp

/-- `app.post('/api/payments/m/cof')`: like the other auth routes but checks
`if (!cardInfo)` after the token check and passes the card info as the POST
body. -/
def addPaymentMethod (base : String) (authHeader : Option String)
    (cardInfo : Json) (resp : FetchResponse) : Response × List OutboundRequest :=
  match jsToken (extractToken authHeader) with
  | none => (unauthorizedResponse, [])
  | some t =>
    if cardInfo.truthy then
      proxyCall (base ++ "/api/payments/m/cof") "POST" (some cardInfo)
        "Error adding payment method" t resp
    else
      ({ status := 400, body := .obj [("error", .str "Card information is required")] }, [])

/-- An outbound axios POST issued by the OTP routes: target URL and JSON
request body. -/
structure AxiosCall where
  url : String
  callBody : Json

/-- The outcome of an `axios.post` to the upstream provider: `ok` when the
status was 2xx (axios resolves with the parsed body), `err` otherwise —
axios rejects on non-2xx statuses and on network failures, carrying its own
message and, for HTTP errors, the upstream response body. -/
inductive AxiosOutcome where
  | ok (data : Json)
  | err (message : String) (errBody : Option Json)

/-- The request body of the OTP routes as express parses it: the fields the
handlers read (`phoneNumber`, `phone`, `code`), each possibly absent. -/
structure OtpBody where
  phoneNumber : Option String
  phone : Option String
  code : Option String

/-- `app.post('/api/send-code')`: resolve the phone number as
`req.body.phoneNumber || req.body.phone`; when falsy respond 400 with no
upstream call; otherwise POST `{ to: phoneNumber }` to
`login-with-sms-trigger` and respond 200 with a fixed message on success,
500 with a fixed message when the axios call rejects.  Returns the response
and the list of upstream calls made. -/
def sendCode (base : String) (body : OtpBody) (trigger : AxiosOutcome) :
    Response × List AxiosCall :=
  match jsOr body.phoneNumber body.phone with
  | none => ({ status := 400, body := .obj [("error", .str "Phone number is required.")] }, [])
  | some p =>
    if p = "" then
      ({ status := 400, body := .obj [("error", .str "Phone number is required.")] }, [])
    else
      let call : AxiosCall :=
        { url := base ++ "/api/auth/login-with-sms-trigger"
          callBody := .obj [("to", .str p)] }
      match trigger with
      | .ok _ =>
        ({ status := 200, body := .obj [("message", .str "Verification code sent!")] }, [call])
      | .err _ _ =>
        ({ status := 500, body := .obj [("error", .str "Failed to send verification code")] }, [call])

/-- The IP resolution step of verify-code: on a successful lookup use the
trimmed response text, otherwise `req.ip || '127.0.0.1'`. -/
def resolveUserIp (ipLookup : Except String String) (reqIp : Option String) : String :=
  match ipLookup with
  | .ok text => text.trim
  | .error _ =>
    match reqIp with
    | some ip => if ip = "" then "127.0.0.1" else ip
    | none => "127.0.0.1"

/-- `app.post('/api/verify-code')`: resolve the phone number as
`req.body.phoneNumber || req.body.phone` and the code; when either is falsy
respond 400 with no upstream call.  Resolve the client IP (external lookup
with fallback), POST `{ to, code, Ip, lang: 'en' }` to
`login-with-sms-verify`; on a resolved response check
`response?.data?.result?.token` for truthiness: truthy → 200 with
`{ message: 'Login successful!', token }`, falsy → 400
`{ error: 'Failed to retrieve token.' }`.  When the axios call rejects
(non-2xx or network failure) the catch block responds 400
`{ error: 'Invalid verification code' }`.  Returns the response and the list
of upstream verify calls made (the IP lookup is the `ipLookup` argument). -/
def verifyCode (base : String) (body : OtpBody) (reqIp : Option String)
    (ipLookup : Except String String) (verify : AxiosOutcome) :
    Response × List AxiosCall :=
  let p := jsOr body.phoneNumber body.phone
  if !jsStrTruthy p || !jsStrTruthy body.code then
    ({ status := 400, body := .obj [("error", .str "Phone number and code are required.")] }, [])
  else
    let phone := p.getD ""
    let code := body.code.getD ""
    let userIp := resolveUserIp ipLookup reqIp
    let call : AxiosCall :=
      { url := base ++ "/api/auth/login-with-sms-verify"
        callBody := .obj
          [("to", .str phone), ("code", .str code), ("Ip", .str userIp), ("lang", .str "en")] }
    match verify with
    | .err _ _ =>
      ({ status := 400, body := .obj [("error", .str "Invalid verification code")] }, [call])
    | .ok data =>
      match data.getPath ["result", "token"] with
      | some tok =>
        if tok.truthy then
          ({ status := 200
             body := .obj [("message", .str "Login successful!"), ("token", tok)] }, [call])
        else
          ({ status := 400, body := .obj [("error", .str "Failed to retrieve token.")] }, [call])
      | none =>
        ({ status := 400, body := .obj [("error", .str "Failed to retrieve token.")] }, [call])

/-- On a non-ok status with a parseable non-null body, `fetchOutcome` throws
the constructed upstream error. -/
theorem fetchOutcome_nonok (resp : FetchResponse) (data : Json)
    (hb : resp.body = Except.ok data) (hok : respOk resp.status = false)
    (hnull : data ≠ Json.null) :
    fetchOutcome resp =
      Except.error (.upstream resp.status data (upstreamErrMessage data)) := by
  unfold fetchOutcome
  rw [hb]
  simp only [hok, Bool.false_eq_true, if_false]

/-- On a non-ok status with a parseable non-null body, a proxy route's
response relays the upstream status and carries the constructed message. -/
theorem proxyCall_nonok (url method fallback tok : String) (body : Option Json)
    (resp : FetchResponse) (data : Json)
    (hb : resp.body = Except.ok data) (hok : respOk resp.status = false)
    (hnull : data ≠ Json.null) (hst : resp.status ≠ 0) :
    (proxyCall url method body fallback tok resp).fst =
      ⟨resp.status, .obj [("error", .str (strOr (upstreamErrMessage data) fallback))]⟩ := by
  unfold proxyCall makeAuthenticatedRequest
  rw [fetchOutcome_nonok resp data hb hok hnull]
  dsimp only
  unfold relayError natOr
  simp [hst]

/-- C2: for every auth-required route (profile, payment-method
list/add/delete, restaurant detail), a request with no Authorization header
gets the 401 JSON error response and no outbound network call is made. -/
theorem authRoutes_missing_header_401_no_calls (base cardId restaurantId : String)
    (cardInfo : Json) (resp : FetchResponse) :
    getUserProfile base none resp = (unauthorizedResponse, []) ∧
    getPaymentMethods base none resp = (unauthorizedResponse, []) ∧
    addPaymentMethod base none cardInfo resp = (unauthorizedResponse, []) ∧
    deletePaymentMethod base none cardId resp = (unauthorizedResponse, []) ∧
    getRestaurantDetail base none restaurantId resp = (unauthorizedResponse, []) :=
  ⟨rfl, rfl, rfl, rfl, rfl⟩

/-- C8 counterexample: a DELETE call handed a non-null body does NOT get the
body serialized and attached — the claim says DELETE-with-body attaches it. -/
theorem delete_body_not_attached :
    (makeAuthenticatedRequest "https://u/api/profile/payment-methods/c1" "DELETE" "tok"
      (some (Json.obj [("reason", Json.str "user request")]))
      ⟨200, .ok .null⟩).fst.reqBody = none := rfl

/-- C8 amended: for every Upstream Client call, the body is serialized to
JSON and attached exactly when the body is truthy and the method is POST or
PUT; a DELETE (with or without body) and a null body never get one. -/
theorem body_attached_iff_truthy_post_put (url method token : String)
    (b : Json) (resp : FetchResponse) :
    (makeAuthenticatedRequest url method token (some b) resp).fst.reqBody =
      (if b.truthy && (method == "POST" || method == "PUT")
       then some b.stringify else none) ∧
    (makeAuthenticatedRequest url method token none resp).fst.reqBody = none :=
  ⟨rfl, rfl⟩

/-- C7 counterexample: an upstream 404 whose body fails JSON parsing yields a
client 500, not the raw upstream status the claim promises. -/
theorem parse_failure_status_not_relayed :
    (getUserProfile "https://u" (some "Bearer abc")
      ⟨404, .error "Unexpected end of JSON input"⟩).fst.status ≠ 404 ∧
    (getUserProfile "https://u" (some "Bearer abc")
      ⟨404, .error "Unexpected end of JSON input"⟩).fst.status = 500 :=
  ⟨by decide, rfl⟩

/-- C7 amended: the Upstream Client always parses the response as JSON, and
when parsing fails the thrown error is the parse rejection, which carries no
upstream status or body; the route's catch then answers 500 (for any raw
upstream status) with the parse error message. -/
theorem parse_failure_maps_to_500 (url method token base : String) (body : Option Json)
    (authHeader : Option String) (t : String) (st : Nat) (msg : String)
    (ht : jsToken (extractToken authHeader) = some t) :
    (makeAuthenticatedRequest url method token body ⟨st, .error msg⟩).snd =
      Except.error (.jsonParse msg) ∧
    (getUserProfile base authHeader ⟨st, .error msg⟩).fst =
      ⟨500, .obj [("error", .str (strOr msg "Error fetching profile"))]⟩ := by
  constructor
  · rfl
  · unfold getUserProfile authProxy
    rw [ht]
    rfl

/-- Closed witness for the C7 amended theorem at a concrete input. -/
theorem parse_failure_maps_to_500_witness :
    (makeAuthenticatedRequest "https://u/api/rn/profile" "GET" "abc" none
      ⟨404, .error "Unexpected end of JSON input"⟩).snd =
      Except.error (.jsonParse "Unexpected end of JSON input") ∧
    (getUserProfile "https://u" (some "Bearer abc")
      ⟨404, .error "Unexpected end of JSON input"⟩).fst =
      ⟨500, .obj [("error", .str "Unexpected end of JSON input")]⟩ :=
  parse_failure_maps_to_500 "https://u/api/rn/profile" "GET" "abc" "https://u" none
    (some "Bearer abc") "abc" 404 "Unexpected end of JSON input" rfl

/-- C1 counterexample: GET /api/restaurants/42 with a valid bearer token and
an upstream 404 whose body is exactly the claimed one relays the status but
NOT the body — the client body is not the upstream body. -/
theorem restaurantDetail_404_body_not_relayed :
    (getRestaurantDetail "https://u" (some "Bearer abc") "42"
      ⟨404, .ok (.obj [("error", .str "not found")])⟩).fst.status = 404 ∧
    (getRestaurantDetail "https://u" (some "Bearer abc") "42"
      ⟨404, .ok (.obj [("error", .str "not found")])⟩).fst.body ≠
      Json.obj [("error", Json.str "not found")] := by
  refine ⟨rfl, ?_⟩
  have h : (getRestaurantDetail "https://u" (some "Bearer abc") "42"
      ⟨404, .ok (.obj [("error", .str "not found")])⟩).fst.body =
      Json.obj [("error", Json.str "API request failed")] := rfl
  rw [h]
  simp

/-- C1 amended: on every authenticated proxied route, when the upstream
provider responds with a non-2xx status (and a parseable, non-null JSON
body), the gateway relays the upstream status code, but the body is replaced
by a JSON object whose single `error` field holds
`data.message || 'API request failed'` (with the route's own fallback text
when even that message is empty) — never the upstream body verbatim. -/
theorem authRoutes_upstream_error_relays_status_not_body
    (base cardId restaurantId t : String) (authHeader : Option String)
    (cardInfo : Json) (resp : FetchResponse) (data : Json)
    (ht : jsToken (extractToken authHeader) = some t)
    (hcard : cardInfo.truthy = true)
    (hb : resp.body = Except.ok data)
    (hok : respOk resp.status = false)
    (hnull : data ≠ Json.null)
    (hst : resp.status ≠ 0) :
    (getUserProfile base authHeader resp).fst =
      ⟨resp.status,
       .obj [("error", .str (strOr (upstreamErrMessage data) "Error fetching profile"))]⟩ ∧
    (getPaymentMethods base authHeader resp).fst =
      ⟨resp.status,
       .obj [("error", .str (strOr (upstreamErrMessage data) "Error fetching payment methods"))]⟩ ∧
    (addPaymentMethod base authHeader cardInfo resp).fst =
      ⟨resp.status,
       .obj [("error", .str (strOr (upstreamErrMessage data) "Error adding payment method"))]⟩ ∧
    (deletePaymentMethod base authHeader cardId resp).fst =
      ⟨resp.status,
       .obj [("error", .str (strOr (upstreamErrMessage data) "Error deleting payment method"))]⟩ ∧
    (getRestaurantDetail base authHeader restaurantId resp).fst =
      ⟨resp.status,
       .obj [("error", .str (strOr (upstreamErrMessage data) "Error fetching restaurant details"))]⟩ := by
  refine ⟨?_, ?_, ?_, ?_, ?_⟩
  · unfold getUserProfile authProxy
    rw [ht]
    exact proxyCall_nonok _ _ _ _ _ _ _ hb hok hnull hst
  · unfold getPaymentMethods authProxy
    rw [ht]
    exact proxyCall_nonok _ _ _ _ _ _ _ hb hok hnull hst
  · unfold addPaymentMethod
    rw [ht]
    simp only [hcard, if_true]
    exact proxyCall_nonok _ _ _ _ _ _ _ hb hok hnull hst
  · unfold deletePaymentMethod authProxy
    rw [ht]
    exact proxyCall_nonok _ _ _ _ _ _ _ hb hok hnull hst
  · unfold getRestaurantDetail authProxy
    rw [ht]
    exact proxyCall_nonok _ _ _ _ _ _ _ hb hok hnull hst

/-- Closed witness for the C1 amended theorem at a concrete input. -/
theorem authRoutes_upstream_error_relays_status_not_body_witness :
    (getUserProfile "https://u" (some "Bearer abc")
      ⟨404, .ok (.obj [("error", .str "not found")])⟩).fst =
      ⟨404, .obj [("error", .str "API request failed")]⟩ ∧
    (getPaymentMethods "https://u" (some "Bearer abc")
      ⟨404, .ok (.obj [("error", .str "not found")])⟩).fst =
      ⟨404, .obj [("error", .str "API request failed")]⟩ ∧
    (addPaymentMethod "https://u" (some "Bearer abc") (.obj [("number", .str "4111")])
      ⟨404, .ok (.obj [("error", .str "not found")])⟩).fst =
      ⟨404, .obj [("error", .str "API request failed")]⟩ ∧
    (deletePaymentMethod "https://u" (some "Bearer abc") "c1"
      ⟨404, .ok (.obj [("error", .str "not found")])⟩).fst =
      ⟨404, .obj [("error", .str "API request failed")]⟩ ∧
    (getRestaurantDetail "https://u" (some "Bearer abc") "42"
      ⟨404, .ok (.obj [("error", .str "not found")])⟩).fst =
      ⟨404, .obj [("error", .str "API request failed")]⟩ :=
  authRoutes_upstream_error_relays_status_not_body "https://u" "c1" "42" "abc"
    (some "Bearer abc") (.obj [("number", .str "4111")])
    ⟨404, .ok (.obj [("error", .str "not found")])⟩
    (.obj [("error", .str "not found")])
    rfl rfl rfl rfl (fun h => Json.noConfusion h) (by decide)

/-- C5: with valid inputs, an upstream verify rejection (non-2xx or network
error) yields the fixed 400 "Invalid verification code" response, and the
whole observable behaviour (response and call trace) is identical for any
two upstream error bodies — nothing from the upstream error leaks. -/
theorem verify_upstream_error_fixed_400_no_leak (base : String) (body : OtpBody)
    (reqIp : Option String) (look : Except String String)
    (m1 m2 : String) (b1 b2 : Option Json)
    (hp : jsStrTruthy (jsOr body.phoneNumber body.phone) = true)
    (hc : jsStrTruthy body.code = true) :
    (verifyCode base body reqIp look (.err m1 b1)).fst =
      ⟨400, .obj [("error", .str "Invalid verification code")]⟩ ∧
    verifyCode base body reqIp look (.err m1 b1) =
      verifyCode base body reqIp look (.err m2 b2) := by
  constructor
  · unfold verifyCode
    simp [hp, hc]
  · rfl

/-- Closed witness for the C5 theorem at a concrete input. -/
theorem verify_upstream_error_fixed_400_no_leak_witness :
    (verifyCode "https://u" ⟨some "+16045551234", none, some "000000"⟩ none
      (.ok "9.9.9.9\n") (.err "Request failed with status code 400"
        (some (.obj [("error", .str "internal diagnostic")])))).fst =
      ⟨400, .obj [("error", .str "Invalid verification code")]⟩ ∧
    verifyCode "https://u" ⟨some "+16045551234", none, some "000000"⟩ none
      (.ok "9.9.9.9\n") (.err "Request failed with status code 400"
        (some (.obj [("error", .str "internal diagnostic")]))) =
    verifyCode "https://u" ⟨some "+16045551234", none, some "000000"⟩ none
      (.ok "9.9.9.9\n") (.err "Request failed with status code 500"
        (some (.obj [("error", .str "totally different body")]))) :=
  verify_upstream_error_fixed_400_no_leak "https://u"
    ⟨some "+16045551234", none, some "000000"⟩ none (.ok "9.9.9.9\n")
    "Request failed with status code 400" "Request failed with status code 500"
    (some (.obj [("error", .str "internal diagnostic")]))
    (some (.obj [("error", .str "totally different body")])) rfl rfl

/-- C6: send-code with a falsy resolved phone number answers 400 with no
upstream call; with a truthy one it makes exactly one upstream call to
`login-with-sms-trigger` with body `{ to: phoneNumber }`, answers
200 `{ message: 'Verification code sent!' }` whenever the call succeeds
(whatever the upstream body), and answers 500 when the call fails. -/
theorem send_code_one_call_200_or_500 (base : String) (body : OtpBody)
    (trigger : AxiosOutcome) :
    (jsStrTruthy (jsOr body.phoneNumber body.phone) = false →
      sendCode base body trigger =
        (⟨400, .obj [("error", .str "Phone number is required.")]⟩, [])) ∧
    (∀ p, jsOr body.phoneNumber body.phone = some p → p ≠ "" →
      (sendCode base body trigger).snd =
        [⟨base ++ "/api/auth/login-with-sms-trigger", .obj [("to", .str p)]⟩] ∧
      (∀ d, trigger = AxiosOutcome.ok d →
        (sendCode base body trigger).fst =
          ⟨200, .obj [("message", .str "Verification code sent!")]⟩) ∧
      (∀ m eb, trigger = AxiosOutcome.err m eb →
        (sendCode base body trigger).fst =
          ⟨500, .obj [("error", .str "Failed to send verification code")]⟩)) := by
  constructor
  · intro h
    unfold sendCode
    rcases hj : jsOr body.phoneNumber body.phone with _ | p
    · rfl
    · rw [hj] at h
      have hpe : p = "" := by simpa [jsStrTruthy] using h
      simp [hpe]
  · intro p hj hpne
    have hsc : sendCode base body trigger =
        ((match trigger with
          | .ok _ => ⟨200, .obj [("message", .str "Verification code sent!")]⟩
          | .err _ _ => ⟨500, .obj [("error", .str "Failed to send verification code")]⟩),
         [⟨base ++ "/api/auth/login-with-sms-trigger", .obj [("to", .str p)]⟩]) := by
      unfold sendCode
      rw [hj]
      cases trigger <;> simp [hpne]
    refine ⟨by rw [hsc], ?_, ?_⟩
    · intro d hd
      rw [hsc, hd]
    · intro m eb hme
      rw [hsc, hme]

/-- Closed witness for the C6 theorem at the spec's example input. -/
theorem send_code_one_call_200_or_500_witness :
    (sendCode "https://u" ⟨some "+16045551234", none, none⟩ (.ok .null)).snd =
      [⟨"https://u/api/auth/login-with-sms-trigger", .obj [("to", .str "+16045551234")]⟩] ∧
    (sendCode "https://u" ⟨some "+16045551234", none, none⟩ (.ok .null)).fst =
      ⟨200, .obj [("message", .str "Verification code sent!")]⟩ := by
  have h := (send_code_one_call_200_or_500 "https://u" ⟨some "+16045551234", none, none⟩
    (.ok .null)).2 "+16045551234" rfl (by decide)
  exact ⟨h.1, h.2.1 .null rfl⟩

/-- C3: when the external IP lookup fails, verify-code still issues the
upstream verify call, with the fallback IP (the inbound connection's IP, or
127.0.0.1 when that is unavailable), and an upstream response carrying a
truthy `result.token` still yields the 200 `{message, token}` response. -/
theorem verify_ip_lookup_failure_still_succeeds (base phone codeStr lookupErr : String)
    (reqIp : Option String) (data tok : Json)
    (hp : phone ≠ "") (hc : codeStr ≠ "")
    (htok : data.getPath ["result", "token"] = some tok)
    (htt : tok.truthy = true) :
    verifyCode base ⟨some phone, none, some codeStr⟩ reqIp (.error lookupErr) (.ok data) =
      (⟨200, .obj [("message", .str "Login successful!"), ("token", tok)]⟩,
       [⟨base ++ "/api/auth/login-with-sms-verify",
         .obj [("to", .str phone), ("code", .str codeStr),
               ("Ip", .str (resolveUserIp (.error lookupErr) reqIp)), ("lang", .str "en")]⟩]) ∧
    (∀ ip, reqIp = some ip → ip ≠ "" →
      resolveUserIp (Except.error lookupErr) reqIp = ip) ∧
    (reqIp = none → resolveUserIp (Except.error lookupErr) reqIp = "127.0.0.1") := by
  refine ⟨?_, ?_, ?_⟩
  · unfold verifyCode
    simp [jsOr, jsStrTruthy, hp, hc, htok, htt]
  · intro ip hip hipne
    subst hip
    unfold resolveUserIp
    simp [hipne]
  · intro h
    subst h
    rfl

/-- Closed witness for the C3 theorem at a concrete input. -/
theorem verify_ip_lookup_failure_still_succeeds_witness :
    verifyCode "https://u" ⟨some "+16045551234", none, some "123456"⟩ (some "10.0.0.7")
      (.error "getaddrinfo ENOTFOUND checkip.amazonaws.com")
      (.ok (.obj [("result", .obj [("token", .str "tok-123")])])) =
      (⟨200, .obj [("message", .str "Login successful!"), ("token", .str "tok-123")]⟩,
       [⟨"https://u/api/auth/login-with-sms-verify",
         .obj [("to", .str "+16045551234"), ("code", .str "123456"),
               ("Ip", .str (resolveUserIp
                 (.error "getaddrinfo ENOTFOUND checkip.amazonaws.com") (some "10.0.0.7"))),
               ("lang", .str "en")]⟩]) ∧
    resolveUserIp (Except.error "getaddrinfo ENOTFOUND checkip.amazonaws.com")
      (some "10.0.0.7") = "10.0.0.7" := by
  have h := verify_ip_lookup_failure_still_succeeds "https://u" "+16045551234" "123456"
    "getaddrinfo ENOTFOUND checkip.amazonaws.com" (some "10.0.0.7")
    (.obj [("result", .obj [("token", .str "tok-123")])]) (.str "tok-123")
    (by decide) (by decide) rfl rfl
  exact ⟨h.1, h.2.1 "10.0.0.7" rfl (by decide)⟩

/-- C4 counterexample: an upstream 2xx verify response with `result.token`
present but equal to the empty string (a falsy value) gets a 400, though the
claim promises 200 whenever `result.token` is present. -/
theorem verify_empty_token_present_but_400 :
    (Json.obj [("result", Json.obj [("token", Json.str "")])]).getPath
      ["result", "token"] = some (Json.str "") ∧
    (verifyCode "https://u" ⟨some "+16045551234", none, some "123456"⟩ none
      (.error "ip lookup down")
      (.ok (.obj [("result", .obj [("token", .str "")])]))).fst =
      ⟨400, .obj [("error", .str "Failed to retrieve token.")]⟩ :=
  ⟨rfl, rfl⟩

/-- C4 amended: on an upstream 2xx verify response, the gateway answers 400
(never 200) whenever `response.data.result.token` is absent or falsy (the
empty string included), and answers 200 with
`{ message: 'Login successful!', token }` exactly when that field is present
and truthy. -/
theorem verify_token_truthiness_decides_status (base phone codeStr : String)
    (reqIp : Option String) (look : Except String String) (data : Json)
    (hp : phone ≠ "") (hc : codeStr ≠ "") :
    (jsOptTruthy (data.getPath ["result", "token"]) = false →
      (verifyCode base ⟨some phone, none, some codeStr⟩ reqIp look (.ok data)).fst =
        ⟨400, .obj [("error", .str "Failed to retrieve token.")]⟩ ∧
      (verifyCode base ⟨some phone, none, some codeStr⟩ reqIp look (.ok data)).fst.status
        ≠ 200) ∧
    (∀ tok, data.getPath ["result", "token"] = some tok → tok.truthy = true →
      (verifyCode base ⟨some phone, none, some codeStr⟩ reqIp look (.ok data)).fst =
        ⟨200, .obj [("message", .str "Login successful!"), ("token", tok)]⟩) := by
  constructor
  · intro hfalse
    have h400 : (verifyCode base ⟨some phone, none, some codeStr⟩ reqIp look (.ok data)).fst =
        ⟨400, .obj [("error", .str "Failed to retrieve token.")]⟩ := by
      rcases hgp : data.getPath ["result", "token"] with _ | tok
      · unfold verifyCode
        simp [jsOr, jsStrTruthy, hp, hc, hgp]
      · rw [hgp] at hfalse
        have htf : tok.truthy = false := by simpa [jsOptTruthy] using hfalse
        unfold verifyCode
        simp [jsOr, jsStrTruthy, hp, hc, hgp, htf]
    refine ⟨h400, ?_⟩
    rw [h400]
    decide
  · intro tok hgp htt
    unfold verifyCode
    simp [jsOr, jsStrTruthy, hp, hc, hgp, htt]

/-- Closed witness for the C4 amended theorem at concrete inputs. -/
theorem verify_token_truthiness_decides_status_witness :
    ((verifyCode "https://u" ⟨some "+16045551234", none, some "123456"⟩ none
      (.error "down") (.ok (.obj [("result", .obj [])]))).fst =
      ⟨400, .obj [("error", .str "Failed to retrieve token.")]⟩ ∧
     (verifyCode "https://u" ⟨some "+16045551234", none, some "123456"⟩ none
      (.error "down") (.ok (.obj [("result", .obj [])]))).fst.status ≠ 200) ∧
    (verifyCode "https://u" ⟨some "+16045551234", none, some "123456"⟩ none
      (.error "down") (.ok (.obj [("result", .obj [("token", .str "tok-9")])]))).fst =
      ⟨200, .obj [("message", .str "Login successful!"), ("token", .str "tok-9")]⟩ := by
  constructor
  · exact (verify_token_truthiness_decides_status "https://u" "+16045551234" "123456" none
      (.error "down") (.obj [("result", .obj [])]) (by decide) (by decide)).1 rfl
  · exact (verify_token_truthiness_decides_status "https://u" "+16045551234" "123456" none
      (.error "down") (.obj [("result", .obj [("token", .str "tok-9")])])
      (by decide) (by decide)).2 (.str "tok-9") rfl rfl

/-- C9: both OTP routes resolve the phone number as
`req.body.phoneNumber || req.body.phone`: a request with only `phone` is
accepted and that value is forwarded upstream as `to`; a truthy
`phoneNumber` wins over `phone`; with both fields absent the route answers
400 with no upstream call. -/
theorem phone_field_fallback (base p q codeStr : String) (c : Option String)
    (trigger verify : AxiosOutcome) (reqIp : Option String)
    (look : Except String String)
    (hp : p ≠ "") (hq : q ≠ "") (hcode : codeStr ≠ "") :
    (sendCode base ⟨none, some p, c⟩ trigger).snd =
      [⟨base ++ "/api/auth/login-with-sms-trigger", .obj [("to", .str p)]⟩] ∧
    (sendCode base ⟨some q, some p, c⟩ trigger).snd =
      [⟨base ++ "/api/auth/login-with-sms-trigger", .obj [("to", .str q)]⟩] ∧
    sendCode base ⟨none, none, c⟩ trigger =
      (⟨400, .obj [("error", .str "Phone number is required.")]⟩, []) ∧
    (verifyCode base ⟨none, some p, some codeStr⟩ reqIp look verify).snd =
      [⟨base ++ "/api/auth/login-with-sms-verify",
        .obj [("to", .str p), ("code", .str codeStr),
              ("Ip", .str (resolveUserIp look reqIp)), ("lang", .str "en")]⟩] ∧
    verifyCode base ⟨none, none, some codeStr⟩ reqIp look verify =
      (⟨400, .obj [("error", .str "Phone number and code are required.")]⟩, []) := by
  refine ⟨?_, ?_, ?_, ?_, ?_⟩
  · cases trigger <;> (unfold sendCode; simp [jsOr, jsStrTruthy, hp])
  · cases trigger <;> (unfold sendCode; simp [jsOr, jsStrTruthy, hq])
  · rfl
  · cases verify with
    | err m eb =>
      unfold verifyCode
      simp [jsOr, jsStrTruthy, hp, hcode]
    | ok d =>
      unfold verifyCode
      rcases hgp : d.getPath ["result", "token"] with _ | tok
      · simp [jsOr, jsStrTruthy, hp, hcode, hgp]
      · rcases htt : tok.truthy with _ | _ <;>
          simp [jsOr, jsStrTruthy, hp, hcode, hgp, htt]
  · rfl

/-- Closed witness for the C9 theorem at concrete inputs. -/
theorem phone_field_fallback_witness :
    (sendCode "https://u" ⟨none, some "+16040000001", none⟩ (.ok .null)).snd =
      [⟨"https://u/api/auth/login-with-sms-trigger",
        .obj [("to", .str "+16040000001")]⟩] ∧
    (sendCode "https://u" ⟨some "+16040000002", some "+16040000001", none⟩ (.ok .null)).snd =
      [⟨"https://u/api/auth/login-with-sms-trigger",
        .obj [("to", .str "+16040000002")]⟩] ∧
    sendCode "https://u" ⟨none, none, none⟩ (.ok .null) =
      (⟨400, .obj [("error", .str "Phone number is required.")]⟩, []) ∧
    (verifyCode "https://u" ⟨none, some "+16040000001", some "123456"⟩ none
      (.error "down") (.ok .null)).snd =
      [⟨"https://u/api/auth/login-with-sms-verify",
        .obj [("to", .str "+16040000001"), ("code", .str "123456"),
              ("Ip", .str (resolveUserIp (.error "down") none)), ("lang", .str "en")]⟩] ∧
    verifyCode "https://u" ⟨none, none, some "123456"⟩ none (.error "down") (.ok .null) =
      (⟨400, .obj [("error", .str "Phone number and code are required.")]⟩, []) :=
  phone_field_fallback "https://u" "+16040000001" "+16040000002" "123456" none
    (.ok .null) (.ok .null) none (.error "down")
    (by decide) (by decide) (by decide)

/-- Whatever the upstream outcome, an authenticated proxy call issues exactly
the one request `makeAuthenticatedRequest` builds. -/
theorem proxyCall_snd (url method fallback tok : String) (body : Option Json)
    (resp : FetchResponse) :
    (proxyCall url method body fallback tok resp).snd =
      [(makeAuthenticatedRequest url method tok body resp).fst] := by
  unfold proxyCall makeAuthenticatedRequest
  cases hfo : fetchOutcome resp <;> rfl

/-- C10: the profile route takes the second space-separated word of the
Authorization header as the token without checking the scheme word: whenever
the header has a truthy second word `t`, the upstream request carries
`Authorization: Bearer t` (whatever the first word was), and whenever the
second word is absent or empty (e.g. a bare token with no space) the route
answers 401 with no outbound call. -/
theorem token_extraction_scheme_unchecked (base header : String) (resp : FetchResponse) :
    (∀ t, extractToken (some header) = some t → t ≠ "" →
      (getUserProfile base (some header) resp).snd =
        [⟨base ++ "/api/rn/profile", "GET", "Bearer " ++ t, none⟩]) ∧
    (jsToken (extractToken (some header)) = none →
      getUserProfile base (some header) resp = (unauthorizedResponse, [])) := by
  constructor
  · intro t ht htne
    have hjt : jsToken (extractToken (some header)) = some t := by
      unfold jsToken
      rw [ht]
      simp [htne]
    unfold getUserProfile authProxy
    rw [hjt]
    rw [proxyCall_snd]
    rfl
  · intro h
    unfold getUserProfile authProxy
    rw [h]

/-- Closed witness for the C10 theorem: a Basic-scheme header has its second
word forwarded as a bearer token; a header with no space gives a 401. -/
theorem token_extraction_scheme_unchecked_witness :
    (getUserProfile "https://u" (some "Basic xyz") ⟨200, .ok .null⟩).snd =
      [⟨"https://u/api/rn/profile", "GET", "Bearer xyz", none⟩] ∧
    getUserProfile "https://u" (some "sometoken") ⟨200, .ok .null⟩ =
      (unauthorizedResponse, []) :=
  ⟨(token_extraction_scheme_unchecked "https://u" "Basic xyz" ⟨200, .ok .null⟩).1
      "xyz" rfl (by decide),
   (token_extraction_scheme_unchecked "https://u" "sometoken" ⟨200, .ok .null⟩).2 rfl⟩

end WD
